import Mathlib

/-!
# Whispermind Conduit — shallow embedding of the agentic request pipeline

A shallow embedding of `src/enhanced-conduit.js` (class
`EnhancedWhispermindConduit`): the mode decision and orchestration of
`processAgenticRequest`, the Redis-backed `storeConversation` and
`updateUserSession` operations, the four built-in agent tools defined in
`processWithAgenticTools`, and the error path `sendErrorResponse`.

External collaborators (LM Studio backend, filesystem, Redis availability,
wall-clock time) are modelled as explicit parameters: backend outcomes are
`Except String` values, the `.act()` callback sequence is a list of events,
and timestamps/latencies are passed in.  JavaScript truthiness on the
defaulting expressions (`x || default`) is modelled field by field: `0` and
the empty string are falsy.
-/

namespace Conduit

/-- JS `a || b` where `a` is an optional string and the empty string is
falsy (used for `response.parsed?.response || response.content || ...`). -/
def jsOrStr (a : Option String) (b : String) : String :=
  match a with
  | none => b
  | some s => if s = "" then b else s

/-- JS `a || b` where `a` is an optional rational and `0` is falsy
(used for `request.temperature || 0.7`). -/
def jsOrQ (a : Option ℚ) (b : ℚ) : ℚ :=
  match a with
  | none => b
  | some x => if x = 0 then b else x

/-- JS `a || b` where `a` is an optional natural and `0` is falsy
(used for `request.max_tokens || 1000`). -/
def jsOrNatOpt (a : Option Nat) (b : Nat) : Nat :=
  match a with
  | none => b
  | some x => if x = 0 then b else x

/-- JS `a || b` on a present number (used for
`parsed.conversationCount || 0`): `0` is falsy. -/
def jsOrNat (a b : Nat) : Nat :=
  if a = 0 then b else a

/-- An inbound request, after `handleIncomingMessage` has fixed the id
(`request.id || uuidv4()`).  Fields mirror the JSON payload on the
`whispermind:request` channel. -/
structure Request where
  id : String
  user : Option String
  message : String
  agent_mode : Option String
  temperature : Option ℚ
  max_tokens : Option Nat
  context : Option String
deriving Repr, DecidableEq

/-- JS `request.user || 'anonymous'` (empty user string is falsy in JS). -/
def userOf (req : Request) : String :=
  jsOrStr req.user "anonymous"

/-! ## Session store (`updateUserSession`) -/

/-- The `preferences` object built in `updateUserSession`. -/
structure Preferences where
  agenticMode : Bool
  temperature : ℚ
  maxTokens : Nat
deriving Repr, DecidableEq

/-- The session record written to `sessions:{userId}`. -/
structure StoredSession where
  userId : String
  preferences : Preferences
  context : String
  lastActivity : String
  conversationCount : Nat
deriving Repr, DecidableEq

/-- The preference object `updateUserSession` computes from the incoming
request: `agenticMode: request.agent_mode === 'autonomous'`,
`temperature: request.temperature || 0.7`,
`maxTokens: request.max_tokens || 1000`. -/
def prefsOfRequest (req : Request) : Preferences :=
  { agenticMode := req.agent_mode = some "autonomous"
    temperature := jsOrQ req.temperature (7/10)
    maxTokens := jsOrNatOpt req.max_tokens 1000 }

/-- JS object spread `{ ...parsed.preferences, ...session.preferences }`:
the later object wins on every key it defines, and the freshly built
preference object always defines all three keys, so the merge result is the
fresh object on each field. -/
def mergePrefs (_old fresh : Preferences) : Preferences :=
  { agenticMode := fresh.agenticMode
    temperature := fresh.temperature
    maxTokens := fresh.maxTokens }

/-- The operation `updateUserSession(userId, request)`: builds a fresh session record
(counter 1), and when a stored record exists sets the counter to
`(parsed.conversationCount || 0) + 1` and spreads the old preferences under
the new ones.  Returns the record together with the `setex` TTL of 86400
seconds (24 hours).  `existing = none` models both "new user" and "prior
record expired". -/
def updateUserSession (existing : Option StoredSession) (userId : String)
    (req : Request) (now : String) : StoredSession × Nat :=
  let fresh : StoredSession :=
    { userId := userId
      preferences := prefsOfRequest req
      context := req.context.getD ""
      lastActivity := now
      conversationCount := 1 }
  let session :=
    match existing with
    | none => fresh
    | some parsed =>
        { fresh with
            conversationCount := jsOrNat parsed.conversationCount 0 + 1
            preferences := mergePrefs parsed.preferences fresh.preferences }
  (session, 86400)

/-! ## Conversation store (`storeConversation`) -/

/-- One entry of `conversations:{userId}`, as built in `storeConversation`. -/
structure ConvEntry where
  timestamp : String
  userMessage : String
  aiResponse : String
  processingTime : Nat
  agentRounds : Nat
  toolsUsed : List String
  madnessLevel : String
deriving Repr, DecidableEq

/-- The Redis list at `conversations:{userId}` together with its TTL
(`none` until the first `expire` call). -/
structure ConvState where
  entries : List ConvEntry
  ttl : Option Nat
deriving Repr, DecidableEq

/-- The operation `storeConversation`: `lpush` the serialized entry, `ltrim 0 99`
(keep the 100 most recent, most recent first), then `expire` the key for
604800 seconds (7 days). -/
def storeConversation (conv : ConvState) (entry : ConvEntry) : ConvState :=
  { entries := (entry :: conv.entries).take 100
    ttl := some 604800 }

/-! ## Tool registry (`processWithAgenticTools`, lines 480–551)

Each tool is a total function: the `try/catch` bodies of the source are
mirrored by matching on the `Except` outcome of the external call, so a
failure is always converted into a result object carrying an `error`
field — no tool ever propagates a fault. -/

/-- The structured result value a tool hands back to the orchestrator.
`errorObj` is the `{ error: ... }` shape produced in every `catch` branch. -/
inductive ToolResult where
  | fileInfo (size : Nat) (lines : Nat) (type : String) (preview : String)
  | sysInfo (platform : String) (arch : String) (nodeVersion : String)
      (memory : Nat) (uptime : Nat)
  | calcResult (result : Int)
  | histResult (conversations : List ConvEntry) (total : Nat)
  | errorObj (error : String)
deriving Repr, DecidableEq

/-- Does the result value carry an `error` field? -/
def ToolResult.isError : ToolResult → Bool
  | .errorObj _ => true
  | _ => false

/-- What `fs.stat` + `fs.readFile` deliver when the path is readable. -/
structure FileData where
  size : Nat
  content : String
deriving Repr, DecidableEq

/-- Model of `path.extname`: the extension of the last path segment, the dot
included; empty for a dotless name and for a bare leading-dot name. -/
def extnameOf (p : String) : String :=
  let base := (p.splitOn "/").getLastD ""
  let parts := base.splitOn "."
  match parts with
  | [] => ""
  | [_] => ""
  | "" :: [_] => ""
  | _ => "." ++ parts.getLastD ""

/-- The `file_analyzer` tool: on a readable file returns size, line count
(`content.split('\n').length`), extension and a 200-character preview; on
an access failure (`fsOut = .error e`) returns `{ error: e.message }`. -/
def file_analyzer (fsOut : Except String FileData) (filePath : String) :
    ToolResult :=
  match fsOut with
  | .error e => .errorObj e
  | .ok fd =>
      .fileInfo fd.size ((fd.content.splitOn "\n").length)
        (extnameOf filePath) (fd.content.take 200)

/-- The ambient process data `system_info` reads. -/
structure SysEnv where
  platform : String
  arch : String
  nodeVersion : String
  memory : Nat
  uptime : Nat
deriving Repr, DecidableEq

/-- The `system_info` tool: reports the process environment; has no
failure path. -/
def system_info (env : SysEnv) : ToolResult :=
  .sysInfo env.platform env.arch env.nodeVersion env.memory env.uptime

/-! ### Arithmetic evaluation for `mad_calculator`

The source evaluates the expression string through
`Function('"use strict"; return (…)')()` — full JavaScript expression
evaluation over IEEE-754 doubles.  The model below covers only the
fragment on which that evaluation is exact integer arithmetic: integer
literals with `+`, `-`, `*`, parentheses and unary minus (with results
small enough that binary64 does not round), via a tokenizer and a
precedence-respecting recursive-descent evaluator.  A `none` result means
only that the string is outside this fragment: it includes both strings
the JS call rejects (throwing, which the tool's `catch` converts to
`{ error: 'Calculation failed' }`) and strings it evaluates successfully
with non-integer or floating-point semantics (division, decimal literals,
exponentiation), which are not modelled.  (The random `madness_factor`
attached to a successful result is ambient noise and not modelled
either.) -/

/-- Arithmetic tokens. -/
inductive Tok where
  | num (n : Nat)
  | plus
  | minus
  | star
  | lparen
  | rparen
deriving Repr, DecidableEq

/-- Read a run of digits, most significant first, returning the value and
the rest of the input. -/
def readNum : List Char → Nat → Nat × List Char
  | [], acc => (acc, [])
  | c :: cs, acc =>
      if c.isDigit then readNum cs (acc * 10 + (c.toNat - 48))
      else (acc, c :: cs)

/-- Fuel-indexed tokenizer: digits, `+ - * ( )` and spaces. -/
def tokenizeAux : Nat → List Char → Option (List Tok)
  | _, [] => some []
  | 0, _ :: _ => none
  | fuel + 1, c :: cs =>
      if c.isDigit then
        let p := readNum (c :: cs) 0
        match tokenizeAux fuel p.2 with
        | some ts => some (Tok.num p.1 :: ts)
        | none => none
      else if c = ' ' then tokenizeAux fuel cs
      else if c = '+' then (tokenizeAux fuel cs).map (Tok.plus :: ·)
      else if c = '-' then (tokenizeAux fuel cs).map (Tok.minus :: ·)
      else if c = '*' then (tokenizeAux fuel cs).map (Tok.star :: ·)
      else if c = '(' then (tokenizeAux fuel cs).map (Tok.lparen :: ·)
      else if c = ')' then (tokenizeAux fuel cs).map (Tok.rparen :: ·)
      else none

/-- Tokenize an expression string. -/
def tokenize (s : String) : Option (List Tok) :=
  tokenizeAux s.length s.toList

mutual

/-- Atom: numeric literal, parenthesized expression, or unary minus. -/
def parseAtom : Nat → List Tok → Option (Int × List Tok)
  | 0, _ => none
  | fuel + 1, ts =>
      match ts with
      | Tok.num n :: rest => some ((n : Int), rest)
      | Tok.minus :: rest =>
          match parseAtom fuel rest with
          | some (v, rest2) => some (-v, rest2)
          | none => none
      | Tok.lparen :: rest =>
          match parseExprV fuel rest with
          | some (v, Tok.rparen :: rest2) => some (v, rest2)
          | _ => none
      | _ => none

/-- Left-associated chain of `*` applications after a first factor. -/
def parseTermRest : Nat → Int → List Tok → Option (Int × List Tok)
  | 0, _, _ => none
  | fuel + 1, acc, ts =>
      match ts with
      | Tok.star :: rest =>
          match parseAtom fuel rest with
          | some (v, rest2) => parseTermRest fuel (acc * v) rest2
          | none => none
      | _ => some (acc, ts)

/-- Term: product of atoms. -/
def parseTerm : Nat → List Tok → Option (Int × List Tok)
  | 0, _ => none
  | fuel + 1, ts =>
      match parseAtom fuel ts with
      | some (v, rest) => parseTermRest fuel v rest
      | none => none

/-- Left-associated chain of `+`/`-` applications after a first term. -/
def parseExprRest : Nat → Int → List Tok → Option (Int × List Tok)
  | 0, _, _ => none
  | fuel + 1, acc, ts =>
      match ts with
      | Tok.plus :: rest =>
          match parseTerm fuel rest with
          | some (v, rest2) => parseExprRest fuel (acc + v) rest2
          | none => none
      | Tok.minus :: rest =>
          match parseTerm fuel rest with
          | some (v, rest2) => parseExprRest fuel (acc - v) rest2
          | none => none
      | _ => some (acc, ts)

/-- Expression: sum/difference of terms. -/
def parseExprV : Nat → List Tok → Option (Int × List Tok)
  | 0, _ => none
  | fuel + 1, ts =>
      match parseTerm fuel ts with
      | some (v, rest) => parseExprRest fuel v rest
      | none => none

end

/-- Evaluate an integer arithmetic expression string; `none` when the
string is outside the modelled fragment (which covers both strings the JS
evaluation rejects and strings it evaluates with floating-point
semantics). -/
def evalArith (s : String) : Option Int :=
  match tokenize s with
  | none => none
  | some ts =>
      match parseExprV (4 * ts.length + 8) ts with
      | some (v, []) => some v
      | _ => none

/-- The `mad_calculator` tool restricted to the modelled integer
fragment: a successful evaluation is returned as the result object, and
everything else takes the `catch` branch's shape
`{ error: 'Calculation failed', madness_level: 'chaotic' }` — narrower
than the source on the success side (see the note above), but with the
same two result shapes and the same totality. -/
def mad_calculator (expression : String) : ToolResult :=
  match evalArith expression with
  | some v => .calcResult v
  | none => .errorObj "Calculation failed"

/-- The `conversation_history` tool: `lrange 0 (limit-1)` over the user's
conversation list plus `llen`; a Redis failure (`redisOut = .error e`)
becomes `{ error: e.message }`.  The source defaults `limit` to 5. -/
def conversation_history (redisOut : Except String ConvState)
    (limit : Nat := 5) : ToolResult :=
  match redisOut with
  | .error e => .errorObj e
  | .ok conv => .histResult (conv.entries.take limit) conv.entries.length

/-! ## Orchestrator (`processAgenticRequest`, lines 362–439) -/

/-- JS `String.prototype.includes`: is `needle` a contiguous substring?
`isSubAt needle hay` checks a match at the head of `hay`. -/
def isSubAt : List Char → List Char → Bool
  | [], _ => true
  | _ :: _, [] => false
  | c :: cs, d :: ds => c = d && isSubAt cs ds

/-- Substring search over the character list of the haystack. -/
def containsList (needle : List Char) : List Char → Bool
  | [] => needle.isEmpty
  | d :: ds => isSubAt needle (d :: ds) || containsList needle ds

/-- JS `hay.includes(needle)`. -/
def strIncludes (hay needle : String) : Bool :=
  containsList needle.toList hay.toList

/-- The mode decision of `processAgenticRequest`:
`request.agent_mode === 'autonomous' || request.message.includes('solve')
|| request.message.includes('analyze') ||
request.message.includes('calculate')`. -/
def decideAgentMode (req : Request) : Bool :=
  (req.agent_mode = some "autonomous" : Bool)
    || strIncludes req.message "solve"
    || strIncludes req.message "analyze"
    || strIncludes req.message "calculate"

/-- One callback fired by the backend's `.act()` call: `on_message` (logged
only), `on_tool_call` (round start) or `on_tool_result` (round end). -/
inductive AgentEvent where
  | message (text : String)
  | toolCall (name : String) (round : Nat)
  | toolResult (name : String)
deriving Repr, DecidableEq

/-- One step of the shared `onRoundCallback` closure: `on_tool_call` and
`on_tool_result` both invoke it, so each increments `agentRounds`; the tool
name is pushed onto `toolsUsed` when it is truthy (non-empty). -/
def callbackStep (st : Nat × List String) : AgentEvent → Nat × List String
  | .message _ => st
  | .toolCall n _ => (st.1 + 1, if n = "" then st.2 else st.2 ++ [n])
  | .toolResult n => (st.1 + 1, if n = "" then st.2 else st.2 ++ [n])

/-- The `(agentRounds, toolsUsed)` accumulator after the backend has fired
a sequence of callbacks. -/
def runCallbacks (trace : List AgentEvent) : Nat × List String :=
  trace.foldl callbackStep (0, [])

/-- The number of `on_tool_call` plus `on_tool_result` callbacks in a
trace (each invokes `onRoundCallback` once). -/
def callbackCount : List AgentEvent → Nat
  | [] => 0
  | .message _ :: rest => callbackCount rest
  | .toolCall _ _ :: rest => callbackCount rest + 1
  | .toolResult _ :: rest => callbackCount rest + 1

/-- The truthy tool names carried by the callbacks, in firing order and
with multiplicity. -/
def callbackNames : List AgentEvent → List String
  | [] => []
  | .message _ :: rest => callbackNames rest
  | .toolCall n _ :: rest =>
      if n = "" then callbackNames rest else n :: callbackNames rest
  | .toolResult n :: rest =>
      if n = "" then callbackNames rest else n :: callbackNames rest

/-- The number of `on_tool_result` callbacks alone. -/
def toolResultCount : List AgentEvent → Nat
  | [] => 0
  | .toolResult _ :: rest => toolResultCount rest + 1
  | _ :: rest => toolResultCount rest

/-- JS `[...new Set(xs)]`: deduplicate keeping the first occurrence of each
element, in first-occurrence order. -/
def jsSetDedupAux : List String → List String → List String
  | [], acc => acc.reverse
  | x :: xs, acc =>
      if x ∈ acc then jsSetDedupAux xs acc else jsSetDedupAux xs (x :: acc)

/-- JS `[...new Set(xs)]` as used for `tools_used`. -/
def jsSetDedup (xs : List String) : List String :=
  jsSetDedupAux xs []

/-- What the backend result object exposes to the response builder:
`response.parsed?.response` and `response.content`, each possibly absent. -/
structure RespondResult where
  parsedResponse : Option String
  content : Option String
deriving Repr, DecidableEq

/-- JS `response.parsed?.response || response.content || 'No response
generated'`. -/
def responseText (r : RespondResult) : String :=
  jsOrStr r.parsedResponse (jsOrStr r.content "No response generated")

/-- The external backend's behaviour for one request: the outcome
`model.respond` would deliver in standard mode, and the callback trace plus
final outcome `model.act` would deliver in autonomous mode.  An `.error`
outcome models a throw (timeout or backend fault). -/
structure Backend where
  respond : Except String RespondResult
  actTrace : List AgentEvent
  actResult : Except String RespondResult
deriving Repr

/-- The structured success payload (`ChatResponseSchema.parse` argument);
`tools_used` is `undefined` (`none`) when no tool name was recorded. -/
structure ChatResponse where
  id : String
  user : String
  original_message : String
  response : String
  processing_time_ms : Nat
  timestamp : String
  model : String
  madness_level : String
  agent_rounds : Nat
  tools_used : Option (List String)
deriving Repr, DecidableEq

/-- The error payload built by `sendErrorResponse` (lines 626–643). -/
structure ErrorResponse where
  id : String
  user : String
  error : String
  error_details : String
  timestamp : String
  madness_level : String
deriving Repr, DecidableEq

/-- A message published on the response channel. -/
inductive Published where
  | respEnv (env : ChatResponse)
  | errorEnv (env : ErrorResponse)
deriving Repr, DecidableEq

/-- The identifier an envelope carries. -/
def Published.envId : Published → String
  | .respEnv env => env.id
  | .errorEnv env => env.id

/-- The method `sendErrorResponse`: the fixed category `'Enhanced processing failed'`,
the fault's message as `error_details`, and the `'error_chaos'` tag. -/
def sendErrorResponse (requestId : String) (user : String)
    (errMsg : String) (now : String) : ErrorResponse :=
  { id := requestId
    user := user
    error := "Enhanced processing failed"
    error_details := errMsg
    timestamp := now
    madness_level := "error_chaos" }

/-- The hardcoded `config.service.madnessLevel`. -/
def successMadnessLevel : String := "autonomous_chaos"

/-- The conversation entry `storeConversation` builds from the published
response (`agent_rounds || 0` and `tools_used || []` on the envelope). -/
def convEntryOf (userMessage : String) (env : ChatResponse) : ConvEntry :=
  { timestamp := env.timestamp
    userMessage := userMessage
    aiResponse := env.response
    processingTime := env.processing_time_ms
    agentRounds := env.agent_rounds
    toolsUsed := env.tools_used.getD []
    madnessLevel := env.madness_level }

/-- One agent-activity publication (made inside the callback for each
truthy tool name, for both `executing` and `completed` events). -/
structure RoundActivity where
  tool_name : String
  status : String
deriving Repr, DecidableEq

/-- The activity messages fired while the trace runs. -/
def activityOf (trace : List AgentEvent) : List RoundActivity :=
  trace.foldr (fun ev acc =>
    match ev with
    | .message _ => acc
    | .toolCall n _ => if n = "" then acc else ⟨n, "executing"⟩ :: acc
    | .toolResult n => if n = "" then acc else ⟨n, "completed"⟩ :: acc) []

/-- The observable effect of one `processAgenticRequest` run: the
envelopes published on the response channel, the user's conversation list
afterwards, and the agent-activity messages. -/
structure RunResult where
  published : List Published
  conv : ConvState
  activity : List RoundActivity
deriving Repr, DecidableEq

/-- The method `processAgenticRequest(requestId, request)`: decide the mode, run the
corresponding backend entry point, and either assemble-store-publish the
structured response or publish the error envelope (which stores nothing).
`now` and `elapsed` stand for the wall-clock timestamp and measured
latency; `modelName` is `config.lmStudio.model`. -/
def processAgenticRequest (req : Request) (be : Backend)
    (conv0 : ConvState) (now : String) (elapsed : Nat)
    (modelName : String) : RunResult :=
  let useAgentMode := decideAgentMode req
  let outcome := if useAgentMode then be.actResult else be.respond
  let st := if useAgentMode then runCallbacks be.actTrace else (0, [])
  let activity := if useAgentMode then activityOf be.actTrace else []
  match outcome with
  | .error e =>
      { published := [.errorEnv (sendErrorResponse req.id (userOf req) e now)]
        conv := conv0
        activity := activity }
  | .ok r =>
      let env : ChatResponse :=
        { id := req.id
          user := userOf req
          original_message := req.message
          response := responseText r
          processing_time_ms := elapsed
          timestamp := now
          model := modelName
          madness_level := successMadnessLevel
          agent_rounds := st.1
          tools_used := if st.2.length > 0 then some (jsSetDedup st.2) else none }
      { published := [.respEnv env]
        conv := storeConversation conv0 (convEntryOf req.message env)
        activity := activity }

/-! ## Observations on a run -/

/-- The `agent_rounds` of the single published success envelope, when the
run succeeded. -/
def publishedRounds (run : RunResult) : Option Nat :=
  match run.published with
  | [Published.respEnv env] => some env.agent_rounds
  | _ => none

/-- The raw `tools_used` field of the published success envelope
(`none` inside means the field was left `undefined`). -/
def publishedToolsField (run : RunResult) : Option (Option (List String)) :=
  match run.published with
  | [Published.respEnv env] => some env.tools_used
  | _ => none

/-- The effective tool list of the published success envelope: the
`tools_used` field read back with `|| []`, as `storeConversation` does. -/
def publishedToolsEff (run : RunResult) : Option (List String) :=
  match run.published with
  | [Published.respEnv env] => some (env.tools_used.getD [])
  | _ => none

/-- The response text of the published success envelope. -/
def publishedResponseOf (run : RunResult) : Option String :=
  match run.published with
  | [Published.respEnv env] => some env.response
  | _ => none

/-- The `error` category field of the published error envelope, when the
run faulted. -/
def publishedErrorCategory (run : RunResult) : Option String :=
  match run.published with
  | [Published.errorEnv env] => some env.error
  | _ => none

/-! ## Supporting lemmas -/

/-- Unrolling the `onRoundCallback` fold from an arbitrary accumulator. -/
theorem foldl_callbackStep_eq (trace : List AgentEvent) :
    ∀ (r : Nat) (ts : List String),
      trace.foldl callbackStep (r, ts) =
        (r + callbackCount trace, ts ++ callbackNames trace) := by
  induction trace with
  | nil =>
      intro r ts
      simp [callbackCount, callbackNames]
  | cons ev rest ih =>
      intro r ts
      cases ev with
      | message t =>
          simpa [callbackStep, callbackCount, callbackNames] using ih r ts
      | toolCall n k =>
          have h := ih (r + 1) (if n = "" then ts else ts ++ [n])
          simp only [List.foldl_cons, callbackStep] at h ⊢
          rw [h]
          by_cases hn : n = "" <;>
            simp [hn, callbackCount, callbackNames, Nat.add_assoc,
              Nat.add_comm 1]
      | toolResult n =>
          have h := ih (r + 1) (if n = "" then ts else ts ++ [n])
          simp only [List.foldl_cons, callbackStep] at h ⊢
          rw [h]
          by_cases hn : n = "" <;>
            simp [hn, callbackCount, callbackNames, Nat.add_assoc,
              Nat.add_comm 1]

/-- The callback accumulator is exactly the callback count paired with the
truthy tool names, in firing order. -/
theorem runCallbacks_eq (trace : List AgentEvent) :
    runCallbacks trace = (callbackCount trace, callbackNames trace) := by
  simpa [runCallbacks] using foldl_callbackStep_eq trace 0 []

/-- Membership through the JS-set deduplication accumulator. -/
theorem mem_jsSetDedupAux (l : List String) :
    ∀ (acc : List String) (y : String),
      y ∈ jsSetDedupAux l acc ↔ y ∈ l ∨ y ∈ acc := by
  induction l with
  | nil =>
      intro acc y
      simp [jsSetDedupAux]
  | cons x xs ih =>
      intro acc y
      by_cases hx : x ∈ acc
      · rw [jsSetDedupAux, if_pos hx, ih]
        constructor
        · rintro (h | h)
          · exact Or.inl (List.mem_cons_of_mem x h)
          · exact Or.inr h
        · rintro (h | h)
          · rcases List.mem_cons.mp h with rfl | h2
            · exact Or.inr hx
            · exact Or.inl h2
          · exact Or.inr h
      · rw [jsSetDedupAux, if_neg hx, ih]
        simp [List.mem_cons]
        tauto

/-- The JS-set deduplication accumulator preserves `Nodup`. -/
theorem nodup_jsSetDedupAux (l : List String) :
    ∀ acc : List String, acc.Nodup → (jsSetDedupAux l acc).Nodup := by
  induction l with
  | nil =>
      intro acc h
      simpa [jsSetDedupAux, List.nodup_reverse] using h
  | cons x xs ih =>
      intro acc h
      by_cases hx : x ∈ acc
      · rw [jsSetDedupAux, if_pos hx]
        exact ih acc h
      · rw [jsSetDedupAux, if_neg hx]
        exact ih (x :: acc) (List.nodup_cons.mpr ⟨hx, h⟩)

/-- JS `[...new Set(xs)]` has no duplicates. -/
theorem jsSetDedup_nodup (xs : List String) : (jsSetDedup xs).Nodup :=
  nodup_jsSetDedupAux xs [] List.nodup_nil

/-- JS `[...new Set(xs)]` has exactly the members of `xs`. -/
theorem mem_jsSetDedup (xs : List String) (y : String) :
    y ∈ jsSetDedup xs ↔ y ∈ xs := by
  simpa [jsSetDedup] using mem_jsSetDedupAux xs [] y

/-- The fallback chain of the response builder never yields the empty
string: the final default is non-empty and `||` skips empty strings. -/
theorem responseText_ne_empty (r : RespondResult) : responseText r ≠ "" := by
  rcases r with ⟨p, c⟩
  cases p with
  | none =>
      cases c with
      | none => simp [responseText, jsOrStr]
      | some s => by_cases hs : s = "" <;> simp [responseText, jsOrStr, hs]
  | some s =>
      by_cases hs : s = ""
      · cases c with
        | none => simp [responseText, jsOrStr, hs]
        | some s2 =>
            by_cases hs2 : s2 = "" <;>
              simp [responseText, jsOrStr, hs, hs2]
      · simp [responseText, jsOrStr, hs]

/-- Taking 100 of a cons keeps the head and the 99 newest tail entries. -/
theorem take100_cons (x : ConvEntry) (l : List ConvEntry) :
    (x :: l).take 100 = x :: l.take 99 := by
  rw [show (100 : Nat) = 99 + 1 from rfl, List.take_succ_cons]

/-! ## Claims -/

/-- C6: after each `storeConversation` call the user's stored conversation
list holds at most 100 entries, the new entry is at the front, the oldest
entries beyond the 99 newest retained ones are evicted, the 7-day expiry is
refreshed, and the bound persists over any sequence of appends. -/
theorem storeConversation_bounded (conv : ConvState) (e : ConvEntry)
    (es : List ConvEntry) :
    (storeConversation conv e).entries = e :: conv.entries.take 99 ∧
    (storeConversation conv e).entries.length ≤ 100 ∧
    (storeConversation conv e).entries.head? = some e ∧
    (storeConversation conv e).ttl = some 604800 ∧
    ((e :: es).foldl storeConversation conv).entries.length ≤ 100 := by
  have hstep : ∀ (c : ConvState) (x : ConvEntry),
      (storeConversation c x).entries = x :: c.entries.take 99 := by
    intro c x
    show ((x :: c.entries).take 100) = x :: c.entries.take 99
    exact take100_cons x c.entries
  have hlen : ∀ (c : ConvState) (x : ConvEntry),
      (storeConversation c x).entries.length ≤ 100 := by
    intro c x
    show ((x :: c.entries).take 100).length ≤ 100
    rw [List.length_take]
    exact min_le_left _ _
  refine ⟨hstep conv e, hlen conv e, ?_, rfl, ?_⟩
  · rw [hstep conv e]; rfl
  · induction es generalizing conv e with
    | nil => simpa using hlen conv e
    | cons e2 rest ih =>
        simpa [List.foldl_cons] using ih (storeConversation conv e) e2

/-- C7: `updateUserSession` sets the conversation counter to 1 when no
stored record exists and to the stored counter plus 1 when one exists, and
every call writes with a refreshed 24-hour (86400-second) expiry. -/
theorem updateUserSession_counter (userId now : String) (req : Request)
    (s : StoredSession) :
    (updateUserSession none userId req now).1.conversationCount = 1 ∧
    (updateUserSession (some s) userId req now).1.conversationCount
        = s.conversationCount + 1 ∧
    (updateUserSession none userId req now).2 = 86400 ∧
    (updateUserSession (some s) userId req now).2 = 86400 := by
  refine ⟨rfl, ?_, rfl, rfl⟩
  show jsOrNat s.conversationCount 0 + 1 = s.conversationCount + 1
  unfold jsOrNat
  split <;> omega

/-- C10: the stored preference fields are recomputed from the current
request alone — the previously stored preferences never survive the spread
merge — with `agenticMode` the autonomous-mode test, `temperature`
defaulting to 0.7 when absent or 0, and `maxTokens` defaulting to 1000
when absent or 0. -/
theorem updateUserSession_prefs_recomputed (existing : Option StoredSession)
    (userId now : String) (req : Request) :
    (updateUserSession existing userId req now).1.preferences
        = prefsOfRequest req ∧
    (prefsOfRequest req).agenticMode
        = decide (req.agent_mode = some "autonomous") ∧
    (req.temperature = none → (prefsOfRequest req).temperature = 7 / 10) ∧
    (req.temperature = some 0 → (prefsOfRequest req).temperature = 7 / 10) ∧
    (∀ t : ℚ, req.temperature = some t → t ≠ 0 →
        (prefsOfRequest req).temperature = t) ∧
    (req.max_tokens = none → (prefsOfRequest req).maxTokens = 1000) ∧
    (req.max_tokens = some 0 → (prefsOfRequest req).maxTokens = 1000) ∧
    (∀ m : Nat, req.max_tokens = some m → m ≠ 0 →
        (prefsOfRequest req).maxTokens = m) := by
  refine ⟨?_, rfl, ?_, ?_, ?_, ?_, ?_, ?_⟩
  · cases existing with
    | none => rfl
    | some s => rfl
  · intro h; simp [prefsOfRequest, jsOrQ, h]
  · intro h; simp [prefsOfRequest, jsOrQ, h]
  · intro t h ht; simp [prefsOfRequest, jsOrQ, h, ht]
  · intro h; simp [prefsOfRequest, jsOrNatOpt, h]
  · intro h; simp [prefsOfRequest, jsOrNatOpt, h]
  · intro m h hm; simp [prefsOfRequest, jsOrNatOpt, hm, h]

/-- Witness for C10 at a concrete stored session and a request carrying
the falsy temperature 0 and no max-tokens field. -/
theorem updateUserSession_prefs_recomputed_witness :
    (updateUserSession (some ⟨"u1", ⟨true, 2, 50⟩, "", "t0", 3⟩) "u1"
        ⟨"r1", none, "hi", none, some 0, none, none⟩ "t1").1.preferences
      = prefsOfRequest ⟨"r1", none, "hi", none, some 0, none, none⟩ ∧
    (prefsOfRequest ⟨"r1", none, "hi", none, some 0, none, none⟩).temperature
      = 7 / 10 ∧
    (prefsOfRequest ⟨"r1", none, "hi", none, some 0, none, none⟩).maxTokens
      = 1000 :=
  ⟨(updateUserSession_prefs_recomputed
      (some ⟨"u1", ⟨true, 2, 50⟩, "", "t0", 3⟩) "u1" "t1"
      ⟨"r1", none, "hi", none, some 0, none, none⟩).1,
   (updateUserSession_prefs_recomputed
      (some ⟨"u1", ⟨true, 2, 50⟩, "", "t0", 3⟩) "u1" "t1"
      ⟨"r1", none, "hi", none, some 0, none, none⟩).2.2.2.1 rfl,
   (updateUserSession_prefs_recomputed
      (some ⟨"u1", ⟨true, 2, 50⟩, "", "t0", 3⟩) "u1" "t1"
      ⟨"r1", none, "hi", none, some 0, none, none⟩).2.2.2.2.2.1 rfl⟩

/-- C5: a request without an explicit mode is routed through autonomous
mode exactly when its message contains one of the trigger words `solve`,
`analyze`, `calculate`; in particular a message containing `calculate`
forces autonomous mode. -/
theorem decideAgentMode_trigger (req : Request)
    (h : req.agent_mode = none) :
    decideAgentMode req
      = (strIncludes req.message "solve" || strIncludes req.message "analyze"
          || strIncludes req.message "calculate") ∧
    (strIncludes req.message "calculate" = true →
        decideAgentMode req = true) := by
  constructor
  · simp [decideAgentMode, h]
  · intro hc
    simp [decideAgentMode, h, hc]

/-- Witness for C5: a mode-less request whose message contains
`calculate` is routed through autonomous mode. -/
theorem decideAgentMode_trigger_witness :
    decideAgentMode ⟨"t5", none, "please calculate 2+2", none, none, none,
        none⟩ = true :=
  (decideAgentMode_trigger
      ⟨"t5", none, "please calculate 2+2", none, none, none, none⟩ rfl).2
    (by decide)

/-- C8: each of the four registered tools is a total function whose result
is either the documented success payload or an object carrying an `error`
field; an internal failure of the external call always surfaces as the
error object, never as an uncaught fault. -/
theorem tools_never_fault (fsOut : Except String FileData) (p : String)
    (env : SysEnv) (expr : String) (redisOut : Except String ConvState)
    (limit : Nat) :
    ((∃ e, fsOut = .error e ∧ file_analyzer fsOut p = .errorObj e
          ∧ (file_analyzer fsOut p).isError = true) ∨
      (∃ fd, fsOut = .ok fd ∧ file_analyzer fsOut p
          = .fileInfo fd.size ((fd.content.splitOn "\n").length)
              (extnameOf p) (fd.content.take 200))) ∧
    system_info env
      = .sysInfo env.platform env.arch env.nodeVersion env.memory
          env.uptime ∧
    ((∃ v, mad_calculator expr = .calcResult v) ∨
      (mad_calculator expr = .errorObj "Calculation failed"
        ∧ (mad_calculator expr).isError = true)) ∧
    ((∃ e, redisOut = .error e
          ∧ conversation_history redisOut limit = .errorObj e
          ∧ (conversation_history redisOut limit).isError = true) ∨
      (∃ conv, redisOut = .ok conv ∧ conversation_history redisOut limit
          = .histResult (conv.entries.take limit) conv.entries.length)) := by
  refine ⟨?_, rfl, ?_, ?_⟩
  · cases fsOut with
    | error e => exact Or.inl ⟨e, rfl, rfl, rfl⟩
    | ok fd => exact Or.inr ⟨fd, rfl, rfl⟩
  · cases h : evalArith expr with
    | some v => exact Or.inl ⟨v, by simp [mad_calculator, h]⟩
    | none =>
        exact Or.inr ⟨by simp [mad_calculator, h],
          by simp [mad_calculator, h, ToolResult.isError]⟩
  · cases redisOut with
    | error e => exact Or.inl ⟨e, rfl, rfl, rfl⟩
    | ok conv => exact Or.inr ⟨conv, rfl, rfl⟩

/-- C3 counterexample: on a faulting run the published error category is
the fixed string `Enhanced processing failed`, which is not the claimed
string `processing failed`. -/
theorem errorCategory_counterexample :
    publishedErrorCategory
        (processAgenticRequest
          ⟨"e1", some "u1", "Hello", some "standard", none, none, none⟩
          ⟨Except.error "LM Studio timeout", [],
            Except.error "LM Studio timeout"⟩
          ⟨[], none⟩ "2026-01-01T00:00:00Z" 5 "qwen2.5-7b-instruct")
      = some "Enhanced processing failed" ∧
    ("Enhanced processing failed" : String) ≠ "processing failed" :=
  ⟨by decide, by decide⟩

/-- C3 (amended: the category string is `Enhanced processing failed`):
whenever processing faults, the published envelope is exactly the
`sendErrorResponse` payload — fixed category `Enhanced processing failed`,
detail equal to the fault's message, and the `error_chaos` tag, distinct
from the success tag. -/
theorem sendErrorResponse_envelope (req : Request) (be : Backend)
    (conv0 : ConvState) (now : String) (elapsed : Nat) (modelName : String)
    (e : String)
    (hout : (if decideAgentMode req then be.actResult else be.respond)
        = Except.error e) :
    (processAgenticRequest req be conv0 now elapsed modelName).published
      = [Published.errorEnv (sendErrorResponse req.id (userOf req) e now)] ∧
    (sendErrorResponse req.id (userOf req) e now).error
      = "Enhanced processing failed" ∧
    (sendErrorResponse req.id (userOf req) e now).error_details = e ∧
    (sendErrorResponse req.id (userOf req) e now).madness_level
      = "error_chaos" ∧
    (sendErrorResponse req.id (userOf req) e now).madness_level
      ≠ successMadnessLevel := by
  refine ⟨?_, rfl, rfl, rfl, by simp [sendErrorResponse, successMadnessLevel]⟩
  simp [processAgenticRequest, hout]

/-- Witness for C3 on a concrete standard-mode fault. -/
theorem sendErrorResponse_envelope_witness :
    (processAgenticRequest ⟨"e2", none, "Hi", none, none, none, none⟩
        ⟨Except.error "timeout", [], Except.ok ⟨none, none⟩⟩
        ⟨[], none⟩ "t" 1 "m").published
      = [Published.errorEnv (sendErrorResponse "e2" "anonymous" "timeout"
          "t")] ∧
    (sendErrorResponse "e2" "anonymous" "timeout" "t").error
      = "Enhanced processing failed" ∧
    (sendErrorResponse "e2" "anonymous" "timeout" "t").error_details
      = "timeout" ∧
    (sendErrorResponse "e2" "anonymous" "timeout" "t").madness_level
      = "error_chaos" ∧
    (sendErrorResponse "e2" "anonymous" "timeout" "t").madness_level
      ≠ successMadnessLevel :=
  sendErrorResponse_envelope ⟨"e2", none, "Hi", none, none, none, none⟩
    ⟨Except.error "timeout", [], Except.ok ⟨none, none⟩⟩
    ⟨[], none⟩ "t" 1 "m" "timeout" rfl

/-- C1 counterexample: a request whose processing faults gets its one
error envelope published, but no Conversation Entry is appended — the
conversation list is left unchanged, where the claim demands exactly one
appended entry on failure as on success. -/
theorem terminal_envelope_counterexample :
    (processAgenticRequest
        ⟨"r-fail", some "u1", "Hello", some "standard", none, none, none⟩
        ⟨Except.error "LM Studio timeout", [],
          Except.error "LM Studio timeout"⟩
        ⟨[], none⟩ "ts" 5 "qwen2.5-7b-instruct").published.length = 1 ∧
    publishedErrorCategory
        (processAgenticRequest
          ⟨"r-fail", some "u1", "Hello", some "standard", none, none, none⟩
          ⟨Except.error "LM Studio timeout", [],
            Except.error "LM Studio timeout"⟩
          ⟨[], none⟩ "ts" 5 "qwen2.5-7b-instruct")
      = some "Enhanced processing failed" ∧
    ¬ ((processAgenticRequest
          ⟨"r-fail", some "u1", "Hello", some "standard", none, none, none⟩
          ⟨Except.error "LM Studio timeout", [],
            Except.error "LM Studio timeout"⟩
          ⟨[], none⟩ "ts" 5 "qwen2.5-7b-instruct").conv.entries.length
        = (⟨[], none⟩ : ConvState).entries.length + 1) :=
  ⟨by decide, by decide, by decide⟩

/-- C1 (amended: the entry is appended on success only): every request
entering the orchestrator yields exactly one terminal envelope bearing its
identifier; on success exactly one Conversation Entry is appended at the
front of the user's list, while on fault the error envelope is published
and the conversation list is left untouched. -/
theorem processAgenticRequest_terminal (req : Request) (be : Backend)
    (conv0 : ConvState) (now : String) (elapsed : Nat) (modelName : String)
    (run : RunResult)
    (hrun : run = processAgenticRequest req be conv0 now elapsed modelName) :
    run.published.length = 1 ∧
    (∀ p ∈ run.published, p.envId = req.id) ∧
    (∀ env, run.published = [Published.respEnv env] →
        run.conv.entries
          = convEntryOf req.message env :: conv0.entries.take 99 ∧
        run.conv.entries.head? = some (convEntryOf req.message env)) ∧
    (∀ e, run.published = [Published.errorEnv e] → run.conv = conv0) := by
  subst hrun
  cases hout : (if decideAgentMode req then be.actResult else be.respond)
  case error e =>
    refine ⟨?_, ?_, ?_, ?_⟩ <;>
      simp [processAgenticRequest, hout, Published.envId, sendErrorResponse]
  case ok r =>
    refine ⟨?_, ?_, ?_, ?_⟩
    · simp [processAgenticRequest, hout]
    · simp [processAgenticRequest, hout, Published.envId]
    · intro env heq
      simp only [processAgenticRequest, hout] at heq ⊢
      have henv := (List.cons.injEq _ _ _ _).mp heq
      have henv2 := Published.respEnv.inj henv.1
      subst henv2
      constructor
      · simp [storeConversation, take100_cons]
      · simp [storeConversation, take100_cons]
    · intro e heq
      simp only [processAgenticRequest, hout] at heq
      simp at heq

/-- Witness for C1 on a concrete successful standard-mode run. -/
theorem processAgenticRequest_terminal_witness :
    (processAgenticRequest ⟨"w1", none, "hey", none, none, none, none⟩
        ⟨Except.ok ⟨some "ok", none⟩, [], Except.ok ⟨some "ok", none⟩⟩
        ⟨[], none⟩ "t" 2 "m").published.length = 1 ∧
    (∀ p ∈ (processAgenticRequest ⟨"w1", none, "hey", none, none, none,
          none⟩
        ⟨Except.ok ⟨some "ok", none⟩, [], Except.ok ⟨some "ok", none⟩⟩
        ⟨[], none⟩ "t" 2 "m").published, p.envId = "w1") ∧
    (∀ env, (processAgenticRequest ⟨"w1", none, "hey", none, none, none,
          none⟩
        ⟨Except.ok ⟨some "ok", none⟩, [], Except.ok ⟨some "ok", none⟩⟩
        ⟨[], none⟩ "t" 2 "m").published = [Published.respEnv env] →
        (processAgenticRequest ⟨"w1", none, "hey", none, none, none, none⟩
          ⟨Except.ok ⟨some "ok", none⟩, [], Except.ok ⟨some "ok", none⟩⟩
          ⟨[], none⟩ "t" 2 "m").conv.entries
          = convEntryOf "hey" env
              :: (⟨[], none⟩ : ConvState).entries.take 99 ∧
        (processAgenticRequest ⟨"w1", none, "hey", none, none, none, none⟩
          ⟨Except.ok ⟨some "ok", none⟩, [], Except.ok ⟨some "ok", none⟩⟩
          ⟨[], none⟩ "t" 2 "m").conv.entries.head?
          = some (convEntryOf "hey" env)) ∧
    (∀ e, (processAgenticRequest ⟨"w1", none, "hey", none, none, none,
          none⟩
        ⟨Except.ok ⟨some "ok", none⟩, [], Except.ok ⟨some "ok", none⟩⟩
        ⟨[], none⟩ "t" 2 "m").published = [Published.errorEnv e] →
        (processAgenticRequest ⟨"w1", none, "hey", none, none, none, none⟩
          ⟨Except.ok ⟨some "ok", none⟩, [], Except.ok ⟨some "ok", none⟩⟩
          ⟨[], none⟩ "t" 2 "m").conv = ⟨[], none⟩) :=
  processAgenticRequest_terminal
    ⟨"w1", none, "hey", none, none, none, none⟩
    ⟨Except.ok ⟨some "ok", none⟩, [], Except.ok ⟨some "ok", none⟩⟩
    ⟨[], none⟩ "t" 2 "m" _ rfl

/-- C2 counterexample: a single tool invocation fires one `on_tool_call`
and one `on_tool_result` callback, and the shared round callback counts
both — the published `agent_rounds` is 2 while the number of
on-tool-result callbacks is 1. -/
theorem agent_rounds_counterexample :
    publishedRounds
        (processAgenticRequest
          ⟨"t2", some "u1", "run it", some "autonomous", none, none, none⟩
          ⟨Except.ok ⟨none, some "done"⟩,
            [AgentEvent.toolCall "mad_calculator" 1,
              AgentEvent.toolResult "mad_calculator"],
            Except.ok ⟨none, some "done"⟩⟩
          ⟨[], none⟩ "t" 7 "m")
      = some 2 ∧
    toolResultCount [AgentEvent.toolCall "mad_calculator" 1,
        AgentEvent.toolResult "mad_calculator"] = 1 ∧
    (2 : Nat) ≠ 1 :=
  ⟨by decide, by decide, by decide⟩

/-- C2 (amended: rounds count every callback): in autonomous mode the
published `agent_rounds` equals the total number of `on_tool_call` plus
`on_tool_result` callbacks fired — not the on-tool-result count alone —
and `tools_used`, when present, is a duplicate-free list whose membership
is exactly the set of tool names the callbacks carried, independent of
order and multiplicity. -/
theorem agent_rounds_counts_all_callbacks (req : Request) (be : Backend)
    (conv0 : ConvState) (now : String) (elapsed : Nat) (modelName : String)
    (r : RespondResult)
    (hmode : decideAgentMode req = true)
    (hok : be.actResult = Except.ok r) :
    publishedRounds (processAgenticRequest req be conv0 now elapsed
        modelName)
      = some (callbackCount be.actTrace) ∧
    (callbackNames be.actTrace = [] →
      publishedToolsField (processAgenticRequest req be conv0 now elapsed
          modelName) = some none ∧
      publishedToolsEff (processAgenticRequest req be conv0 now elapsed
          modelName) = some []) ∧
    (callbackNames be.actTrace ≠ [] →
      publishedToolsEff (processAgenticRequest req be conv0 now elapsed
          modelName)
        = some (jsSetDedup (callbackNames be.actTrace)) ∧
      (jsSetDedup (callbackNames be.actTrace)).Nodup ∧
      (∀ y, y ∈ jsSetDedup (callbackNames be.actTrace)
          ↔ y ∈ callbackNames be.actTrace)) := by
  refine ⟨?_, ?_, ?_⟩
  · simp [processAgenticRequest, hmode, hok, runCallbacks_eq,
      publishedRounds]
  · intro h
    constructor <;>
      simp [processAgenticRequest, hmode, hok, runCallbacks_eq, h,
        publishedToolsField, publishedToolsEff]
  · intro h
    refine ⟨?_, jsSetDedup_nodup _, fun y => mem_jsSetDedup _ y⟩
    have hpos : 0 < (callbackNames be.actTrace).length :=
      List.length_pos.mpr h
    simp [processAgenticRequest, hmode, hok, runCallbacks_eq, hpos,
      publishedToolsEff]

/-- Witness for C2 on a concrete two-invocation trace with a repeated
tool name. -/
theorem agent_rounds_counts_all_callbacks_witness :
    publishedRounds
        (processAgenticRequest
          ⟨"t2w", none, "go", some "autonomous", none, none, none⟩
          ⟨Except.ok ⟨none, none⟩,
            [AgentEvent.toolCall "mad_calculator" 1,
              AgentEvent.toolResult "mad_calculator",
              AgentEvent.toolCall "mad_calculator" 2,
              AgentEvent.toolResult "mad_calculator"],
            Except.ok ⟨none, some "done"⟩⟩
          ⟨[], none⟩ "t" 3 "m")
      = some (callbackCount [AgentEvent.toolCall "mad_calculator" 1,
          AgentEvent.toolResult "mad_calculator",
          AgentEvent.toolCall "mad_calculator" 2,
          AgentEvent.toolResult "mad_calculator"]) ∧
    publishedToolsEff
        (processAgenticRequest
          ⟨"t2w", none, "go", some "autonomous", none, none, none⟩
          ⟨Except.ok ⟨none, none⟩,
            [AgentEvent.toolCall "mad_calculator" 1,
              AgentEvent.toolResult "mad_calculator",
              AgentEvent.toolCall "mad_calculator" 2,
              AgentEvent.toolResult "mad_calculator"],
            Except.ok ⟨none, some "done"⟩⟩
          ⟨[], none⟩ "t" 3 "m")
      = some (jsSetDedup (callbackNames
          [AgentEvent.toolCall "mad_calculator" 1,
            AgentEvent.toolResult "mad_calculator",
            AgentEvent.toolCall "mad_calculator" 2,
            AgentEvent.toolResult "mad_calculator"])) :=
  ⟨(agent_rounds_counts_all_callbacks
      ⟨"t2w", none, "go", some "autonomous", none, none, none⟩
      ⟨Except.ok ⟨none, none⟩,
        [AgentEvent.toolCall "mad_calculator" 1,
          AgentEvent.toolResult "mad_calculator",
          AgentEvent.toolCall "mad_calculator" 2,
          AgentEvent.toolResult "mad_calculator"],
        Except.ok ⟨none, some "done"⟩⟩
      ⟨[], none⟩ "t" 3 "m" ⟨none, some "done"⟩ (by decide) rfl).1,
    ((agent_rounds_counts_all_callbacks
      ⟨"t2w", none, "go", some "autonomous", none, none, none⟩
      ⟨Except.ok ⟨none, none⟩,
        [AgentEvent.toolCall "mad_calculator" 1,
          AgentEvent.toolResult "mad_calculator",
          AgentEvent.toolCall "mad_calculator" 2,
          AgentEvent.toolResult "mad_calculator"],
        Except.ok ⟨none, some "done"⟩⟩
      ⟨[], none⟩ "t" 3 "m" ⟨none, some "done"⟩ (by decide) rfl).2.2
      (by decide)).1⟩

/-- C4: an explicitly standard-mode request whose message contains no
trigger word is answered with a Response Envelope carrying round count 0,
an absent (hence empty) tool list, and non-empty response text. -/
theorem standard_mode_zero_rounds (req : Request) (be : Backend)
    (conv0 : ConvState) (now : String) (elapsed : Nat) (modelName : String)
    (r : RespondResult)
    (hmode : req.agent_mode = some "standard")
    (h1 : strIncludes req.message "solve" = false)
    (h2 : strIncludes req.message "analyze" = false)
    (h3 : strIncludes req.message "calculate" = false)
    (hok : be.respond = Except.ok r) :
    publishedRounds (processAgenticRequest req be conv0 now elapsed
        modelName) = some 0 ∧
    publishedToolsField (processAgenticRequest req be conv0 now elapsed
        modelName) = some none ∧
    publishedToolsEff (processAgenticRequest req be conv0 now elapsed
        modelName) = some [] ∧
    publishedResponseOf (processAgenticRequest req be conv0 now elapsed
        modelName) = some (responseText r) ∧
    responseText r ≠ "" := by
  have hdm : decideAgentMode req = false := by
    simp only [decideAgentMode, hmode, h1, h2, h3]
    decide
  refine ⟨?_, ?_, ?_, ?_, responseText_ne_empty r⟩ <;>
    simp [processAgenticRequest, hdm, hok, publishedRounds,
      publishedToolsField, publishedToolsEff, publishedResponseOf]

/-- Witness for C4 at the spec's scenario request
`id t1, user u1, message Hello, standard mode`. -/
theorem standard_mode_zero_rounds_witness :
    publishedRounds
        (processAgenticRequest
          ⟨"t1", some "u1", "Hello", some "standard", none, none, none⟩
          ⟨Except.ok ⟨some "Hi there!", none⟩, [],
            Except.ok ⟨none, none⟩⟩
          ⟨[], none⟩ "t" 4 "m") = some 0 ∧
    publishedToolsEff
        (processAgenticRequest
          ⟨"t1", some "u1", "Hello", some "standard", none, none, none⟩
          ⟨Except.ok ⟨some "Hi there!", none⟩, [],
            Except.ok ⟨none, none⟩⟩
          ⟨[], none⟩ "t" 4 "m") = some [] ∧
    responseText ⟨some "Hi there!", none⟩ ≠ "" :=
  ⟨(standard_mode_zero_rounds
      ⟨"t1", some "u1", "Hello", some "standard", none, none, none⟩
      ⟨Except.ok ⟨some "Hi there!", none⟩, [], Except.ok ⟨none, none⟩⟩
      ⟨[], none⟩ "t" 4 "m" ⟨some "Hi there!", none⟩
      rfl (by decide) (by decide) (by decide) rfl).1,
    (standard_mode_zero_rounds
      ⟨"t1", some "u1", "Hello", some "standard", none, none, none⟩
      ⟨Except.ok ⟨some "Hi there!", none⟩, [], Except.ok ⟨none, none⟩⟩
      ⟨[], none⟩ "t" 4 "m" ⟨some "Hi there!", none⟩
      rfl (by decide) (by decide) (by decide) rfl).2.2.1,
    (standard_mode_zero_rounds
      ⟨"t1", some "u1", "Hello", some "standard", none, none, none⟩
      ⟨Except.ok ⟨some "Hi there!", none⟩, [], Except.ok ⟨none, none⟩⟩
      ⟨[], none⟩ "t" 4 "m" ⟨some "Hi there!", none⟩
      rfl (by decide) (by decide) (by decide) rfl).2.2.2.2⟩

end Conduit
